import Mathlib

/-!
Shallow embedding of the job-orchestration and worker-adapter layer of the
`genesis-multimodal-ai` repository.

Sources embedded:
  * `src/gateway/schemas.py`   — data model (`Job`, `JobStatus`, `PipelineType`, …)
  * `src/gateway/services/pipeline_executor.py` — `PipelineExecutor.execute`
    and the per-pipeline step functions
  * `src/gateway/db.py`        — `JobDB.create_job` / `get_job` / `_row_to_job`
  * `src/workers/image/main.py` — the fallback-chain image worker `generate`
  * `src/workers/stt/main.py`   — the speech-to-text worker `generate`
  * `src/workers/cyclegan/main.py` — the image-to-image worker `generate`

Modelling conventions:
  * Python `datetime` values are modelled as `Nat` timestamps; `utcnow()` is a
    monotone clock supplied as explicit arguments.
  * Worker HTTP calls are an oracle (environment) mapping each call made by
    the code to the observed outcome; an exception raised by a call is the
    `.error` case.  Each embedded function additionally returns the list of
    calls it performed, in order, so that "adapter X was (not) invoked"
    is statable.
  * Python `float` option values are modelled as `Rat` (a float is an exact
    rational).
  * A JSON blob holding a plain record (`json.dumps(model.dict())` written to
    the DB, parsed back by pydantic) is modelled transparently as the record
    value itself; the enum and datetime fields, whose string encodings the
    code handles explicitly, are modelled through their `value`/`ofValue`
    string tags.
-/

namespace Genesis

/-- Python truthiness of an `Optional[str]`: `None` and `""` are falsy. -/
def pyTruthy : Option String → Bool
  | none => false
  | some s => !(s == "")

/-- Python `f"{x}"` of an `Optional[str]`: `None` prints as `"None"`. -/
def pyStr : Option String → String
  | none => "None"
  | some s => s

/-- `PipelineType` from `src/gateway/schemas.py`.  Because the pydantic model
uses `use_enum_values`, the runtime value is the tag string; `other tag`
stands for a string outside the supported enumeration (the executor's `else`
branch). -/
inductive PipelineType where
  | text_to_text
  | text_to_image
  | text_to_speech
  | speech_to_text
  | speech_to_image
  | image_to_image
  | other (tag : String)
deriving DecidableEq, Repr

/-- The canonical string tag of a pipeline type (`.value` in Python). -/
def PipelineType.value : PipelineType → String
  | .text_to_text => "text_to_text"
  | .text_to_image => "text_to_image"
  | .text_to_speech => "text_to_speech"
  | .speech_to_text => "speech_to_text"
  | .speech_to_image => "speech_to_image"
  | .image_to_image => "image_to_image"
  | .other tag => tag

/-- `PipelineType(s)` in Python: look a tag up in the closed enumeration,
`none` models the `ValueError` raised for an unknown tag. -/
def PipelineType.ofValue (s : String) : Option PipelineType :=
  if s = "text_to_text" then some .text_to_text
  else if s = "text_to_image" then some .text_to_image
  else if s = "text_to_speech" then some .text_to_speech
  else if s = "speech_to_text" then some .speech_to_text
  else if s = "speech_to_image" then some .speech_to_image
  else if s = "image_to_image" then some .image_to_image
  else none

/-- A pipeline value that is a member of the closed enumeration (what the
pydantic validator guarantees for every `Job` it constructs). -/
def PipelineType.supported : PipelineType → Bool
  | .other _ => false
  | _ => true

/-- `JobStatus` from `src/gateway/schemas.py`. -/
inductive JobStatus where
  | queued
  | running
  | completed
  | failed
deriving DecidableEq, Repr

/-- The canonical string tag of a job status (`.value` in Python). -/
def JobStatus.value : JobStatus → String
  | .queued => "queued"
  | .running => "running"
  | .completed => "completed"
  | .failed => "failed"

/-- `JobStatus(s)` in Python. -/
def JobStatus.ofValue (s : String) : Option JobStatus :=
  if s = "queued" then some .queued
  else if s = "running" then some .running
  else if s = "completed" then some .completed
  else if s = "failed" then some .failed
  else none

/-- `JobInputs` from `src/gateway/schemas.py`. -/
structure JobInputs where
  text : Option String := none
  image_url : Option String := none
  audio_url : Option String := none
deriving DecidableEq, Repr

/-- `JobOptions` from `src/gateway/schemas.py`. -/
structure JobOptions where
  style : Option String := none
  language : Option String := some "en"
  quality : Option String := some "high"
  aspect_ratio : Option String := some "1:1"
  model : Option String := none
  temperature : Option Rat := none
  max_tokens : Option Int := none
deriving DecidableEq, Repr

/-- `JobOutputs` from `src/gateway/schemas.py`. -/
structure JobOutputs where
  text : Option String := none
  image_url : Option String := none
  audio_url : Option String := none
deriving DecidableEq, Repr

/-- `JobMetadata` from `src/gateway/schemas.py`; datetimes are `Nat`
timestamps. -/
structure JobMetadata where
  provider : Option String := none
  created_at : Nat := 0
  started_at : Option Nat := none
  completed_at : Option Nat := none
  error_message : Option String := none
  worker_used : Option String := none
deriving DecidableEq, Repr

/-- `Job` from `src/gateway/schemas.py`. -/
structure Job where
  job_id : String
  pipeline : PipelineType
  inputs : JobInputs
  options : JobOptions
  status : JobStatus := .queued
  outputs : JobOutputs := {}
  metadata : JobMetadata := {}
deriving DecidableEq, Repr

/-! ## The pipeline executor (`src/gateway/services/pipeline_executor.py`)

`PipelineExecutor._call_worker` performs one HTTP POST to a worker service.
We record each call as a `WCall` (which worker, the principal payload field,
and the options dict that was sent) and let an oracle `WorkerEnv` decide its
outcome: `.ok` with the parsed response dict, or `.error msg` for a raised
exception (`raise_for_status`, network failure, …). -/

/-- The options dict sent with a worker call: either the job's own options
(`job.options.dict()`) or one of the literal dicts used by the enhancement
calls. -/
inductive CallOptions where
  | jobOpts (o : JobOptions)
  | enhanceOpts (max_tokens : Nat) (temperature : Rat)
deriving DecidableEq, Repr

/-- One worker call made by the executor, with its principal payload field.
An `Option String` payload reflects that the corresponding job field is
`Optional` in Python and is sent as-is (JSON `null` when absent). -/
inductive WCall where
  | llm (text : Option String) (opts : CallOptions)
  | image (prompt : Option String) (opts : CallOptions)
  | stt (audio_url : Option String) (opts : CallOptions)
  | tts (text : Option String) (opts : CallOptions)
  | cyclegan (image_url : Option String) (opts : CallOptions)
deriving DecidableEq, Repr

/-- The response dict of a successful worker call; `none` models an absent
key (the executor reads these with `.get`). -/
structure WResult where
  text : Option String := none
  image_url : Option String := none
  audio_url : Option String := none
deriving DecidableEq, Repr

/-- Oracle for worker calls: outcome of each call the executor can make. -/
def WorkerEnv := WCall → Except String WResult

/-- The f-string of the style-rewrite call in `_text_to_image`:
`f"Rewrite this prompt in a {job.options.style} style: {prompt}"`. -/
def stylePrompt (style : Option String) (prompt : Option String) : String :=
  "Rewrite this prompt in a " ++ pyStr style ++ " style: " ++ pyStr prompt

/-- The f-string of the cleanup call in `_speech_to_image`:
`f"Transform this transcription into a clear image generation prompt: {prompt}"`. -/
def cleanupPrompt (p : String) : String :=
  "Transform this transcription into a clear image generation prompt: " ++ p

/-- `PipelineExecutor._text_to_text`. -/
def textToText (env : WorkerEnv) (job : Job) : Except String Job × List WCall :=
  let c := WCall.llm job.inputs.text (.jobOpts job.options)
  match env c with
  | .error e => (.error e, [c])
  | .ok result =>
      (.ok { job with
              outputs := { job.outputs with text := result.text },
              metadata := { job.metadata with worker_used := some "llm-worker" } },
       [c])

/-- The optional style-rewrite step of `_text_to_image`: when a truthy style
option is present, call the LLM worker; any exception is swallowed
(`except: pass`), falling back to the original prompt, as is an absent
`"text"` key in the response. -/
def styleRewrite (env : WorkerEnv) (job : Job) : Option String × List WCall :=
  if pyTruthy job.options.style then
    let c1 := WCall.llm (some (stylePrompt job.options.style job.inputs.text))
                (.enhanceOpts 200 (7/10))
    match env c1 with
    | .ok enhanced =>
        (match enhanced.text with
         | some t => some t
         | none => job.inputs.text, [c1])
    | .error _ => (job.inputs.text, [c1])
  else (job.inputs.text, [])

/-- `PipelineExecutor._text_to_image`: optional style rewrite through the LLM
worker, then the image worker. -/
def textToImage (env : WorkerEnv) (job : Job) : Except String Job × List WCall :=
  let (prompt, log1) := styleRewrite env job
  let c2 := WCall.image prompt (.jobOpts job.options)
  match env c2 with
  | .error e => (.error e, log1 ++ [c2])
  | .ok result =>
      (.ok { job with
              outputs := { job.outputs with image_url := result.image_url },
              metadata := { job.metadata with worker_used := some "image-worker" } },
       log1 ++ [c2])

/-- `PipelineExecutor._text_to_speech`. -/
def textToSpeech (env : WorkerEnv) (job : Job) : Except String Job × List WCall :=
  let c := WCall.tts job.inputs.text (.jobOpts job.options)
  match env c with
  | .error e => (.error e, [c])
  | .ok result =>
      (.ok { job with
              outputs := { job.outputs with audio_url := result.audio_url },
              metadata := { job.metadata with worker_used := some "tts-worker" } },
       [c])

/-- `PipelineExecutor._speech_to_text`. -/
def speechToText (env : WorkerEnv) (job : Job) : Except String Job × List WCall :=
  let c := WCall.stt job.inputs.audio_url (.jobOpts job.options)
  match env c with
  | .error e => (.error e, [c])
  | .ok result =>
      (.ok { job with
              outputs := { job.outputs with text := result.text },
              metadata := { job.metadata with worker_used := some "stt-worker" } },
       [c])

/-- The optional prompt-cleanup step of `_speech_to_image`: when the
transcription is non-empty, call the LLM worker; any exception is swallowed
(`except: pass`), falling back to the raw transcription. -/
def cleanupStep (env : WorkerEnv) (transcribed : String) : String × List WCall :=
  if transcribed = "" then (transcribed, [])
  else
    let c2 := WCall.llm (some (cleanupPrompt transcribed)) (.enhanceOpts 150 (7/10))
    match env c2 with
    | .ok enhanced =>
        (match enhanced.text with
         | some t => t
         | none => transcribed, [c2])
    | .error _ => (transcribed, [c2])

/-- `PipelineExecutor._speech_to_image`: STT, then the optional
prompt-cleanup step, then the image worker.  Note that
`job.outputs.text = transcribed_text` is assigned only after the image call
succeeded, exactly as in the source. -/
def speechToImage (env : WorkerEnv) (job : Job) : Except String Job × List WCall :=
  let c1 := WCall.stt job.inputs.audio_url (.jobOpts job.options)
  match env c1 with
  | .error e => (.error e, [c1])
  | .ok sttResult =>
      let transcribed := sttResult.text.getD ""
      let (prompt, log2) := cleanupStep env transcribed
      let c3 := WCall.image (some prompt) (.jobOpts job.options)
      match env c3 with
      | .error e => (.error e, c1 :: (log2 ++ [c3]))
      | .ok imageResult =>
          (.ok { job with
                  outputs := { job.outputs with
                                text := some transcribed,
                                image_url := imageResult.image_url },
                  metadata := { job.metadata with
                                worker_used := some "stt-worker,llm-worker,image-worker" } },
           c1 :: (log2 ++ [c3]))

/-- `PipelineExecutor._image_to_image`. -/
def imageToImage (env : WorkerEnv) (job : Job) : Except String Job × List WCall :=
  let c := WCall.cyclegan job.inputs.image_url (.jobOpts job.options)
  match env c with
  | .error e => (.error e, [c])
  | .ok result =>
      (.ok { job with
              outputs := { job.outputs with image_url := result.image_url },
              metadata := { job.metadata with worker_used := some "cyclegan-worker" } },
       [c])

/-- The dispatch on `job.pipeline` inside the `try` of
`PipelineExecutor.execute`; the `else` branch raises
`ValueError(f"Unsupported pipeline: {job.pipeline}")`. -/
def dispatch (env : WorkerEnv) (job : Job) : Except String Job × List WCall :=
  match job.pipeline with
  | .text_to_text => textToText env job
  | .text_to_image => textToImage env job
  | .text_to_speech => textToSpeech env job
  | .speech_to_text => speechToText env job
  | .speech_to_image => speechToImage env job
  | .image_to_image => imageToImage env job
  | .other tag => (.error ("Unsupported pipeline: " ++ tag), [])

/-- The entry of `PipelineExecutor.execute`: status forced to `running`
(regardless of the job's prior status), `started_at` set only if unset
(idempotent). -/
def startJob (tStart : Nat) (job0 : Job) : Job :=
  { job0 with
      status := .running,
      metadata := { job0.metadata with
                    started_at := match job0.metadata.started_at with
                                  | none => some tStart
                                  | some t => some t } }

/-- The exit of `PipelineExecutor.execute`: on success the job returned by
the step function is completed; on any exception the pre-dispatch job is
failed with the exception's message; `completed_at` is set in both cases. -/
def finishJob (tEnd : Nat) (job1 : Job) : Except String Job → Job
  | .ok job2 =>
      { job2 with
          status := .completed,
          metadata := { job2.metadata with completed_at := some tEnd } }
  | .error e =>
      { job1 with
          status := .failed,
          metadata := { job1.metadata with
                        error_message := some e,
                        completed_at := some tEnd } }

/-- `PipelineExecutor.execute`.  `tStart` and `tEnd` are the values of the
two `datetime.utcnow()` reads (entry, and terminal-state transition). -/
def execute (env : WorkerEnv) (tStart tEnd : Nat) (job0 : Job) : Job × List WCall :=
  let job1 := startJob tStart job0
  let (res, log) := dispatch env job1
  (finishJob tEnd job1 res, log)

/-- The uniform result of one worker HTTP endpoint: the successful response
payload, or the `HTTPException` (status code, detail) it raised. -/
inductive WOut (α : Type) where
  | ok (a : α)
  | httpError (status : Nat) (detail : String)
deriving DecidableEq, Repr

namespace ImageWorker

/-! ## The image worker (`src/workers/image/main.py`)

`generate` tries the primary model URL and then each fallback URL in order.
Per candidate: one POST; on a 503 it sleeps `min(estimated_time, 30)` and
re-POSTs once; 410/404 (and, via the `except` clause, a second 503 or a
network error or a too-small body) advance the chain recording `last_error`;
any other HTTP error status aborts the whole chain. -/

/-- Outcome of one POST to a model URL: a response (status, the
`estimated_time` field of its JSON body if parseable, the body — whose
UTF-8 length stands for `len(response.content)`), or a raised
`httpx` request error with message `msg`. -/
inductive PostOutcome where
  | resp (status : Nat) (estimated_time : Option Nat) (body : String)
  | netError (msg : String)
deriving DecidableEq, Repr

/-- Observable events of the image worker: the `n`-th POST to a candidate
URL, and sleeps. -/
inductive Ev where
  | post (url : String) (attempt : Nat)
  | sleepFor (d : Nat)
deriving DecidableEq, Repr

/-- How one candidate's attempt ends: produced an image, advanced the chain
with a `last_error` value, or aborted the whole request
(re-raised `HTTPException`). -/
inductive TryResult where
  | ok
  | advance (err : String)
  | abort (status : Nat) (detail : String)
deriving DecidableEq, Repr

/-- Classification of the (possibly retried) response of one candidate:
the `in [410, 404]` check, then `raise_for_status` (whose
`HTTPStatusError` is re-raised for codes outside `[410, 404, 503]` and
advances the chain for 503), then the `len(image_bytes) < 100` check. -/
def classify (url : String) (s : Nat) (body : String) : TryResult :=
  if s = 410 ∨ s = 404 then .advance ("Model unavailable at " ++ url)
  else if 400 ≤ s then
    if s = 503 then .advance ("API error: " ++ toString s)
    else .abort s ("Hugging Face API error: " ++ body)
  else if body.length < 100 then .advance "Invalid image response"
  else .ok

/-- One iteration of the `for model_url in models_to_try` loop body:
POST, one 503 retry after sleeping `min(estimated_time or 20, 30)`, then
`classify`.  A network error anywhere is caught by the generic `except`
and advances the chain with `str(e)`. -/
def tryModel (env : String → Nat → PostOutcome) (url : String) :
    TryResult × List Ev :=
  match env url 0 with
  | .netError msg => (.advance msg, [.post url 0])
  | .resp s est body =>
      if s = 503 then
        let d := min (est.getD 20) 30
        match env url 1 with
        | .netError msg => (.advance msg, [.post url 0, .sleepFor d, .post url 1])
        | .resp s2 _ body2 =>
            (classify url s2 body2, [.post url 0, .sleepFor d, .post url 1])
      else (classify url s body, [.post url 0])

/-- The candidate loop with the threaded `last_error`; exhausting the list
raises `HTTPException(500, f"Image generation failed with all models. Last
error: {last_error}")`.  Success (`TryResult.ok`: artifact stored under a
fresh random filename) is abstracted to `.ok ()`. -/
def runChain (env : String → Nat → PostOutcome) :
    List String → Option String → Genesis.WOut Unit × List Ev
  | [], lastErr =>
      (.httpError 500
        ("Image generation failed with all models. Last error: " ++ Genesis.pyStr lastErr),
       [])
  | url :: rest, _ =>
      match tryModel env url with
      | (.ok, ev) => (.ok (), ev)
      | (.advance e, ev) =>
          let (o, ev2) := runChain env rest (some e)
          (o, ev ++ ev2)
      | (.abort s d, ev) => (.httpError s d, ev)

/-- The prompt actually sent: `f"{options['style']} style, {prompt}"` when a
truthy style option is present. -/
def buildPrompt (style : Option String) (prompt : String) : String :=
  if Genesis.pyTruthy style then Genesis.pyStr style ++ " style, " ++ prompt
  else prompt

/-- `num_inference_steps` from the quality option
(`{"low": 20, "medium": 40, "high": 50}.get(quality, 50)`, default "high"). -/
def numInferenceSteps (quality : Option String) : Nat :=
  match quality.getD "high" with
  | "low" => 20
  | "medium" => 40
  | "high" => 50
  | _ => 50

/-- `generate` of the image worker: the missing-API-key guard, then the
fallback chain over `[HF_API_URL] + FALLBACK_MODELS` with `last_error`
initially `None`. -/
def generate (hasKey : Bool) (env : String → Nat → PostOutcome)
    (primaryUrl : String) (fallbacks : List String) :
    Genesis.WOut Unit × List Ev :=
  if !hasKey then (.httpError 500 "HUGGINGFACE_API_KEY not configured", [])
  else runChain env (primaryUrl :: fallbacks) none

end ImageWorker

namespace SttWorker

/-! ## The speech-to-text worker (`src/workers/stt/main.py`)

`generate` downloads the audio, POSTs it to the HF endpoint, retries once
after a fixed 10-unit sleep on a 503, and extracts the transcription.
The `except Exception` handler wraps any non-`HTTPStatusError` exception —
including the worker's own inner `HTTPException`s, whose `str` is
`f"{status_code}: {detail}"` — as
`HTTPException(500, f"Speech-to-text failed: {str(e)}")`. -/

/-- The parsed JSON of a response body: a dict (with its optional `"text"`
key), a plain string, some other JSON value, or a decode failure with the
decoder's message. -/
inductive Js where
  | jdict (text : Option String)
  | jstr (s : String)
  | jother
  | jerror (msg : String)
deriving DecidableEq, Repr

/-- An HTTP response (status, raw body text, parsed JSON) or a raised
request error. -/
inductive Resp where
  | resp (status : Nat) (body : String) (js : Js)
  | netErr (msg : String)
deriving DecidableEq, Repr

/-- Oracle for the two outbound requests: the audio download and the `n`-th
POST to the HF endpoint (0 = first attempt, 1 = the 503 retry). -/
structure Env where
  fetchAudio : Resp
  post : Nat → Resp

/-- Observable events of the STT worker. -/
inductive Ev where
  | fetchAudio
  | post (n : Nat)
  | sleepFor (d : Nat)
deriving DecidableEq, Repr

/-- `raise_for_status` on the (possibly retried) response, then the JSON
text extraction with its empty/invalid-format guards. -/
def finalize (s : Nat) (body : String) (js : Js) : Genesis.WOut String :=
  if 400 ≤ s then .httpError s ("Hugging Face API error: " ++ body)
  else
    match js with
    | .jerror m => .httpError 500 ("Speech-to-text failed: " ++ m)
    | .jdict t =>
        if t.getD "" = "" then
          .httpError 500 "Speech-to-text failed: 500: Empty transcription result"
        else .ok (t.getD "")
    | .jstr t =>
        if t = "" then
          .httpError 500 "Speech-to-text failed: 500: Empty transcription result"
        else .ok t
    | .jother =>
        .httpError 500 "Speech-to-text failed: 500: Invalid response format from Hugging Face"

/-- `generate` of the STT worker. -/
def generate (hasKey : Bool) (env : Env) : Genesis.WOut String × List Ev :=
  if !hasKey then (.httpError 500 "HUGGINGFACE_API_KEY not configured", [])
  else
    match env.fetchAudio with
    | .netErr m => (.httpError 500 ("Speech-to-text failed: " ++ m), [.fetchAudio])
    | .resp s body _ =>
        if 400 ≤ s then
          (.httpError s ("Hugging Face API error: " ++ body), [.fetchAudio])
        else
          match env.post 0 with
          | .netErr m =>
              (.httpError 500 ("Speech-to-text failed: " ++ m), [.fetchAudio, .post 0])
          | .resp s1 b1 j1 =>
              if s1 = 503 then
                match env.post 1 with
                | .netErr m =>
                    (.httpError 500 ("Speech-to-text failed: " ++ m),
                     [.fetchAudio, .post 0, .sleepFor 10, .post 1])
                | .resp s2 b2 j2 =>
                    (finalize s2 b2 j2, [.fetchAudio, .post 0, .sleepFor 10, .post 1])
              else (finalize s1 b1 j1, [.fetchAudio, .post 0])

end SttWorker

namespace CycleganWorker

/-! ## The image-to-image worker (`src/workers/cyclegan/main.py`)

`generate` prechecks that the input image URL is fetchable (HEAD, then GET
on failure), POSTs to the ModelLab endpoint, polls `fetch_result` while the
provider reports `"processing"` (at most `max_polls = 30` iterations),
classifies the final status, and downloads and stores the produced image. -/

/-- The parsed JSON dict of a ModelLab response.  `none` on an `Option`
field models an absent key; `error_log` is `none` when the key is absent or
the dict empty (both falsy), `some e` with `e` its `"error"` key otherwise;
`raw` is the Python `str()` of the dict (used by the bottom
`HTTPStatusError` handler). -/
structure MlResult where
  status : Option String := none
  message : Option String := none
  messege : Option String := none
  detail : Option String := none
  error_log : Option (Option String) := none
  fetch_result : Option String := none
  future_links : List String := []
  eta : Option Nat := none
  output : List String := []
  raw : String := ""
deriving DecidableEq, Repr

/-- An HTTP response as the worker observes it: status code, whether the
`content-type` header starts with `application/json`, the body text, the
parsed JSON (`.error m` when `response.json()` raises with `str = m`), and
`excStr` — the `str()` of the `HTTPStatusError` that `raise_for_status`
would raise on it.  `netErr` is a raised `httpx.RequestError`. -/
inductive Resp where
  | resp (status : Nat) (ctJson : Bool) (body : String)
      (js : Except String MlResult) (excStr : String)
  | netErr (msg : String)
deriving Repr

/-- Outcome of the final artifact download: a 2xx body of `n` bytes, or any
raised exception with `str(e) = msg` (a non-2xx status raises inside the
same local `try`, so it is also a `failed`). -/
inductive Fetched where
  | okBytes (n : Nat)
  | failed (msg : String)
deriving DecidableEq, Repr

/-- Oracle for the worker's outbound requests.  Poll-dependent requests are
indexed by the `poll_count` at which they are made; `post n` is the
`n`-th POST of the full job payload to `MODELSLAB_API_URL` (0 = initial,
`k+1` = the retry made at `poll_count = k`). -/
structure Env where
  headCheck : Except String Unit
  getCheck : Except String Unit
  post : Nat → Resp
  fetchPost : String → Nat → Resp
  futureGet : String → Nat → Option Nat
  imageGet : String → Fetched
  imageId : String

/-- Observable events of the CycleGAN worker. -/
inductive Ev where
  | headCheck
  | getCheck
  | providerPost (n : Nat)
  | futureGet (url : String)
  | fetchPost (url : String)
  | imageGet (url : String)
  | sleepFor (d : Nat)
deriving DecidableEq, Repr

/-- An exception escaping the body of the big `try`: the worker's own
`HTTPException` (re-raised unchanged), `httpx.HTTPStatusError`,
`httpx.RequestError`, or any other exception with its `str`. -/
inductive Raise where
  | httpExc (status : Nat) (detail : String)
  | statusErr (status : Nat) (ctJson : Bool) (body : String)
      (js : Except String MlResult) (excStr : String)
  | reqErr (msg : String)
  | otherExc (msg : String)
deriving Repr

/-- The `while result.get("status") == "processing" and poll_count <
max_polls` loop; `fuel` is `max_polls - poll_count` and `pc` the current
`poll_count`. -/
def pollLoop (env : Env) : Nat → Nat → MlResult → Except Raise MlResult × List Ev
  | 0, _, result => (.ok result, [])
  | fuel + 1, pc, result =>
    if result.status ≠ some "processing" then (.ok result, [])
    else
      -- future_links probe: a 200 GET on the first link ends the loop with a
      -- synthetic success dict; any exception or other status falls through.
      let probe : Option MlResult × List Ev :=
        match result.future_links with
        | [] => (none, [])
        | link :: _ =>
            match env.futureGet link pc with
            | some 200 =>
                (some { status := some "success", output := result.future_links },
                 [.futureGet link])
            | some _ => (none, [.futureGet link])
            | none => (none, [.futureGet link])
      match probe with
      | (some result', evs) => (.ok result', evs)
      | (none, evs) =>
        match result.fetch_result with
        | none =>
            if result.future_links ≠ [] then
              -- sleep 5, retry the original POST, re-check status
              match env.post (pc + 1) with
              | .netErr m =>
                  (.error (.reqErr m), evs ++ [.sleepFor 5, .providerPost (pc + 1)])
              | .resp s ct body js excStr =>
                  if 400 ≤ s then
                    (.error (.statusErr s ct body js excStr),
                     evs ++ [.sleepFor 5, .providerPost (pc + 1)])
                  else
                    match js with
                    | .error m =>
                        (.error (.otherExc m),
                         evs ++ [.sleepFor 5, .providerPost (pc + 1)])
                    | .ok result2 =>
                        let (o, evs2) := pollLoop env fuel (pc + 1) result2
                        (o, evs ++ [.sleepFor 5, .providerPost (pc + 1)] ++ evs2)
            else
              (.error (.httpExc 500
                 "ModelLab API returned processing status but no fetch_result URL or future_links"),
               evs)
        | some furl =>
            let d := min (max (result.eta.getD 5) 2) 15
            match env.fetchPost furl pc with
            | .netErr m => (.error (.reqErr m), evs ++ [.sleepFor d, .fetchPost furl])
            | .resp s ct body js excStr =>
                if 400 ≤ s then
                  if s = 404 then
                    -- fetch endpoint not ready: sleep 5 and poll again
                    let (o, evs2) := pollLoop env fuel (pc + 1) result
                    (o, evs ++ [.sleepFor d, .fetchPost furl, .sleepFor 5] ++ evs2)
                  else
                    (.error (.statusErr s ct body js excStr),
                     evs ++ [.sleepFor d, .fetchPost furl])
                else
                  match js with
                  | .error m => (.error (.otherExc m), evs ++ [.sleepFor d, .fetchPost furl])
                  | .ok result2 =>
                      let (o, evs2) := pollLoop env fuel (pc + 1) result2
                      (o, evs ++ [.sleepFor d, .fetchPost furl] ++ evs2)

/-- The post-loop classification of the final result dict and, on success,
the artifact download and store. -/
def classifyResult (env : Env) (result : MlResult) :
    Except Raise String × List Ev :=
  if result.status = some "error" then
    let error_msg :=
      if Genesis.pyTruthy result.message then Genesis.pyStr result.message
      else result.messege.getD "Unknown error from ModelLab API"
    (.error (.httpExc 500 ("ModelLab API error: " ++ error_msg)), [])
  else if result.status = some "failed" then
    let error_msg :=
      if Genesis.pyTruthy result.messege then Genesis.pyStr result.messege
      else result.message.getD "Generation failed"
    match result.error_log with
    | some el =>
        (.error (.httpExc 500 ("ModelLab API generation failed: " ++ el.getD error_msg)), [])
    | none =>
        (.error (.httpExc 500 ("ModelLab API generation failed: " ++ error_msg)), [])
  else if result.status ≠ some "success" then
    (.error (.httpExc 500
       ("Unexpected status from ModelLab API: " ++ Genesis.pyStr result.status)), [])
  else
    match result.output with
    | [] => (.error (.httpExc 500 "ModelLab API returned success but no image URLs"), [])
    | image_url :: _ =>
        match env.imageGet image_url with
        | .failed m =>
            (.error (.httpExc 500 ("Failed to download generated image from ModelLab: " ++ m)),
             [.imageGet image_url])
        | .okBytes n =>
            if n < 100 then
              (.error (.httpExc 500 "Downloaded image is too small or invalid"),
               [.imageGet image_url])
            else
              (.ok ("/storage/images/" ++ env.imageId ++ ".png"), [.imageGet image_url])

/-- The bottom exception handlers of `generate`. -/
def wrapRaise (apiUrl : String) : Raise → Genesis.WOut String
  | .httpExc s d => .httpError s d
  | .statusErr s ctJson body js excStr =>
      let error_text :=
        if ctJson then
          match js with
          | .ok j =>
              if Genesis.pyTruthy j.message then Genesis.pyStr j.message
              else if Genesis.pyTruthy j.detail then Genesis.pyStr j.detail
              else j.raw
          | .error _ => excStr
        else body
      .httpError s ("ModelLab API error (HTTP " ++ toString s ++ "): " ++ error_text)
  | .reqErr m =>
      if m.containsSubstr "Name or service not known" ∨ m.containsSubstr "Name resolution" then
        .httpError 500
          ("ModelLab API endpoint not reachable: " ++ apiUrl ++
           ". Please check your network connection and MODELSLAB_API_URL in .env file. Error: " ++ m)
      else .httpError 500 ("Network error connecting to ModelLab API: " ++ m)
  | .otherExc m => .httpError 500 ("Image transformation failed: " ++ m)

/-- Everything of `generate` after a successful accessibility precheck:
the initial provider POST with its explicit 401/429/400 handling and
`raise_for_status`, the polling loop, and the final classification. -/
def afterPrecheck (env : Env) (apiUrl : String) (evs0 : List Ev) :
    Genesis.WOut String × List Ev :=
  match env.post 0 with
  | .netErr m => (wrapRaise apiUrl (.reqErr m), evs0 ++ [.providerPost 0])
  | .resp s ct body js excStr =>
      let evs1 := evs0 ++ [.providerPost 0]
      if s = 401 then (.httpError 401 "Invalid ModelLab API key", evs1)
      else if s = 429 then (.httpError 429 "ModelLab API rate limit exceeded", evs1)
      else if s = 400 then
        match js, ct with
        | .error m, true => (wrapRaise apiUrl (.otherExc m), evs1)
        | .ok j, true =>
            (.httpError 400 ("ModelLab API error: " ++ j.message.getD body), evs1)
        | _, false => (.httpError 400 ("ModelLab API error: " ++ body), evs1)
      else if 400 ≤ s then (wrapRaise apiUrl (.statusErr s ct body js excStr), evs1)
      else
        match js with
        | .error m => (wrapRaise apiUrl (.otherExc m), evs1)
        | .ok result0 =>
            let (res, evs2) := pollLoop env 30 0 result0
            match res with
            | .error r => (wrapRaise apiUrl r, evs1 ++ evs2)
            | .ok finalResult =>
                let (res2, evs3) := classifyResult env finalResult
                (match res2 with
                 | .error r => wrapRaise apiUrl r
                 | .ok url => .ok url,
                 evs1 ++ evs2 ++ evs3)

/-- `generate` of the CycleGAN worker: the missing-API-key guard, then the
input-accessibility precheck (HEAD, falling back to GET; both failing
raises `HTTPException(400, f"Image URL is not accessible: {str(e)}")` with
the GET's exception), then `afterPrecheck`. -/
def generate (hasKey : Bool) (apiUrl : String) (env : Env) :
    Genesis.WOut String × List Ev :=
  if !hasKey then (.httpError 500 "MODELSLAB_API_KEY not configured", [])
  else
    match env.headCheck with
    | .ok _ => afterPrecheck env apiUrl [.headCheck]
    | .error _ =>
        match env.getCheck with
        | .ok _ => afterPrecheck env apiUrl [.headCheck, .getCheck]
        | .error e =>
            (.httpError 400 ("Image URL is not accessible: " ++ e),
             [.headCheck, .getCheck])

end CycleganWorker

namespace JobDB

/-! ## The persistence layer (`src/gateway/db.py`)

A row of the `jobs` table.  The enum and `created_at` columns are held in
their serialized form (the canonical string tag, the timestamp); the four
JSON-blob columns (`json.dumps(model.dict())`, parsed back by pydantic in
`_row_to_job`) are modelled transparently as the record values they
serialize, this round-trip being injective and inverted by the parse. -/
structure JobRow where
  job_id : String
  pipeline : String
  inputs : JobInputs
  options : JobOptions
  status : String
  outputs : JobOutputs
  metadata : JobMetadata
  created_at : Nat
deriving DecidableEq, Repr

/-- The database: the list of rows of the `jobs` table. -/
abbrev DB := List JobRow

/-- The tuple `create_job` (and `update_job`) binds into its SQL statement:
enums as `.value`, sub-models as their JSON dicts, `created_at` as
`metadata.created_at.isoformat()`. -/
def jobToRow (job : Job) : JobRow :=
  { job_id := job.job_id
    pipeline := job.pipeline.value
    inputs := job.inputs
    options := job.options
    status := job.status.value
    outputs := job.outputs
    metadata := job.metadata
    created_at := job.metadata.created_at }

/-- `JobDB.create_job`: the INSERT succeeds only if the `job_id` primary key
is not already present (`none` models the `IntegrityError`). -/
def create_job (db : DB) (job : Job) : Option DB :=
  if db.any (fun r => r.job_id = job.job_id) then none
  else some (jobToRow job :: db)

/-- `JobDB._row_to_job`: re-validate the enum tags
(`PipelineType(row['pipeline'])`, `JobStatus(row['status'])` — `none`
models the `ValueError` for an unknown tag) and let pydantic parse the JSON
blobs back into the sub-models. -/
def rowToJob (r : JobRow) : Option Job := do
  let p ← PipelineType.ofValue r.pipeline
  let s ← JobStatus.ofValue r.status
  pure { job_id := r.job_id
         pipeline := p
         inputs := r.inputs
         options := r.options
         status := s
         outputs := r.outputs
         metadata := r.metadata }

/-- `JobDB.get_job`: SELECT by primary key, then `_row_to_job`. -/
def get_job (db : DB) (job_id : String) : Option Job :=
  match db.find? (fun r => r.job_id = job_id) with
  | none => none
  | some row => rowToJob row

end JobDB

/-! ## Shared lemmas -/

/-- A successful `_text_to_text` step never touches `metadata.started_at`. -/
theorem textToText_ok_started (env : WorkerEnv) {j j' : Job} {log : List WCall}
    (h : textToText env j = (.ok j', log)) :
    j'.metadata.started_at = j.metadata.started_at := by
  cases henv : env (WCall.llm j.inputs.text (.jobOpts j.options)) with
  | error e => simp [textToText, henv] at h
  | ok r =>
    simp [textToText, henv] at h
    obtain ⟨hj, -⟩ := h
    subst hj
    rfl

/-- A successful `_text_to_speech` step never touches `metadata.started_at`. -/
theorem textToSpeech_ok_started (env : WorkerEnv) {j j' : Job} {log : List WCall}
    (h : textToSpeech env j = (.ok j', log)) :
    j'.metadata.started_at = j.metadata.started_at := by
  cases henv : env (WCall.tts j.inputs.text (.jobOpts j.options)) with
  | error e => simp [textToSpeech, henv] at h
  | ok r =>
    simp [textToSpeech, henv] at h
    obtain ⟨hj, -⟩ := h
    subst hj
    rfl

/-- A successful `_speech_to_text` step never touches `metadata.started_at`. -/
theorem speechToText_ok_started (env : WorkerEnv) {j j' : Job} {log : List WCall}
    (h : speechToText env j = (.ok j', log)) :
    j'.metadata.started_at = j.metadata.started_at := by
  cases henv : env (WCall.stt j.inputs.audio_url (.jobOpts j.options)) with
  | error e => simp [speechToText, henv] at h
  | ok r =>
    simp [speechToText, henv] at h
    obtain ⟨hj, -⟩ := h
    subst hj
    rfl

/-- A successful `_image_to_image` step never touches `metadata.started_at`. -/
theorem imageToImage_ok_started (env : WorkerEnv) {j j' : Job} {log : List WCall}
    (h : imageToImage env j = (.ok j', log)) :
    j'.metadata.started_at = j.metadata.started_at := by
  cases henv : env (WCall.cyclegan j.inputs.image_url (.jobOpts j.options)) with
  | error e => simp [imageToImage, henv] at h
  | ok r =>
    simp [imageToImage, henv] at h
    obtain ⟨hj, -⟩ := h
    subst hj
    rfl

/-- A successful `_text_to_image` step never touches `metadata.started_at`
and records `worker_used = "image-worker"`. -/
theorem textToImage_ok_meta (env : WorkerEnv) {j j' : Job} {log : List WCall}
    (h : textToImage env j = (.ok j', log)) :
    j'.metadata.started_at = j.metadata.started_at ∧
    j'.metadata.worker_used = some "image-worker" := by
  cases henv : env (WCall.image (styleRewrite env j).1 (.jobOpts j.options)) with
  | error e => simp [textToImage, henv] at h
  | ok r =>
    simp [textToImage, henv] at h
    obtain ⟨hj, -⟩ := h
    subst hj
    exact ⟨rfl, rfl⟩

/-- A successful `_speech_to_image` step never touches
`metadata.started_at`. -/
theorem speechToImage_ok_started (env : WorkerEnv) {j j' : Job} {log : List WCall}
    (h : speechToImage env j = (.ok j', log)) :
    j'.metadata.started_at = j.metadata.started_at := by
  cases h1 : env (WCall.stt j.inputs.audio_url (.jobOpts j.options)) with
  | error e => simp [speechToImage, h1] at h
  | ok sttResult =>
    simp [speechToImage, h1] at h
    cases h2 : env (WCall.image (some (cleanupStep env (sttResult.text.getD "")).1)
        (.jobOpts j.options)) with
    | error e => simp [h2] at h
    | ok r =>
      simp [h2] at h
      obtain ⟨hj, -⟩ := h
      subst hj
      rfl

/-- A successful pipeline step never touches `metadata.started_at`. -/
theorem dispatch_ok_started (env : WorkerEnv) {j j' : Job} {log : List WCall}
    (h : dispatch env j = (.ok j', log)) :
    j'.metadata.started_at = j.metadata.started_at := by
  unfold dispatch at h
  cases hp : j.pipeline <;> rw [hp] at h
  · exact textToText_ok_started env h
  · exact (textToImage_ok_meta env h).1
  · exact textToSpeech_ok_started env h
  · exact speechToText_ok_started env h
  · exact speechToImage_ok_started env h
  · exact imageToImage_ok_started env h
  · simp at h

/-- On any exception, `execute` returns the pre-dispatch job (outputs
untouched) with status `failed`. -/
theorem execute_outputs_of_failed (env : WorkerEnv) (t0 t1 : Nat) (job : Job)
    (hf : (execute env t0 t1 job).1.status = .failed) :
    (execute env t0 t1 job).1.outputs = job.outputs := by
  cases hd : dispatch env (startJob t0 job) with
  | mk res log =>
    cases res with
    | ok j2 =>
      simp only [execute] at hf
      rw [hd] at hf
      simp [finishJob] at hf
    | error e =>
      simp only [execute]
      rw [hd]
      simp [finishJob, startJob]

/-! ## Concrete environments and jobs used as witnesses -/

/-- An environment in which every worker call raises. -/
def envFailAll : WorkerEnv := fun _ => .error "worker unreachable"

/-- A fresh text-to-text job. -/
def jobW1 : Job :=
  { job_id := "w1", pipeline := .text_to_text,
    inputs := { text := some "hi" }, options := {} }

/-- A job already in the terminal `completed` state, with outputs. -/
def jobC2 : Job :=
  { job_id := "c2", pipeline := .text_to_text,
    inputs := { text := some "hello" }, options := {},
    status := .completed,
    outputs := { text := some "prior output" },
    metadata := { started_at := some 1, completed_at := some 2 } }

/-- A job whose pipeline tag is outside the supported enumeration. -/
def jobC6 : Job :=
  { job_id := "c6", pipeline := .other "banana", inputs := {}, options := {} }

/-! ## Claims -/

/-- C1: for every job of any pipeline type, `execute` returns a job whose
status is exactly one of the two terminal states (`completed` or `failed`),
with `metadata.completed_at` set in both outcomes and
`completed_at ≥ started_at`.  The hypotheses say the clock is monotone: the
completion read is no earlier than the start read, and no earlier than a
`started_at` recorded by a prior run. -/
theorem execute_ends_terminal_with_timestamps (env : WorkerEnv)
    (tStart tEnd : Nat) (job : Job)
    (h0 : tStart ≤ tEnd)
    (h1 : ∀ s, job.metadata.started_at = some s → s ≤ tEnd) :
    ((execute env tStart tEnd job).1.status = JobStatus.completed ∨
     (execute env tStart tEnd job).1.status = JobStatus.failed) ∧
    ∃ s c, (execute env tStart tEnd job).1.metadata.started_at = some s ∧
           (execute env tStart tEnd job).1.metadata.completed_at = some c ∧
           s ≤ c := by
  obtain ⟨s, hs_eq, hs_le⟩ :
      ∃ s, (startJob tStart job).metadata.started_at = some s ∧ s ≤ tEnd := by
    unfold startJob
    cases hs : job.metadata.started_at with
    | none => exact ⟨tStart, by simp [hs], h0⟩
    | some t => exact ⟨t, by simp [hs], h1 t hs⟩
  cases hd : dispatch env (startJob tStart job) with
  | mk res log =>
    cases res with
    | ok j2 =>
      have hpres := dispatch_ok_started env hd
      simp only [execute]
      rw [hd]
      exact ⟨Or.inl rfl, s, tEnd, by simp [finishJob, hpres, hs_eq], rfl, hs_le⟩
    | error e =>
      simp only [execute]
      rw [hd]
      exact ⟨Or.inr rfl, s, tEnd, by simp [finishJob, hs_eq], rfl, hs_le⟩

/-- Witness for C1 at a concrete input: a fresh text-to-text job executed in
an environment where the worker call raises. -/
theorem execute_ends_terminal_with_timestamps_witness :
    (3 ≤ 7) ∧
    (((execute envFailAll 3 7 jobW1).1.status = JobStatus.completed ∨
      (execute envFailAll 3 7 jobW1).1.status = JobStatus.failed) ∧
     ∃ s c, (execute envFailAll 3 7 jobW1).1.metadata.started_at = some s ∧
            (execute envFailAll 3 7 jobW1).1.metadata.completed_at = some c ∧
            s ≤ c) :=
  ⟨by decide,
   execute_ends_terminal_with_timestamps envFailAll 3 7 jobW1 (by decide)
     (by intro s hs; simp [jobW1] at hs)⟩

/-- C2 counterexample: re-invoking `execute` on a job already `completed` is
not a no-op — a pipeline step is re-executed (the call log is non-empty) and
the status changes (here to `failed`, the worker now being unreachable). -/
theorem reexecute_terminal_not_noop_cex :
    jobC2.status = JobStatus.completed ∧
    (execute envFailAll 5 6 jobC2).1.status = JobStatus.failed ∧
    (execute envFailAll 5 6 jobC2).2 ≠ [] := by decide

/-- C2 (amended): re-invoking `execute` on a job in a terminal state is NOT
guarded against: `execute` never reads the job's prior status (and
`execute_job_async` performs no terminal-state check either), so a
re-submitted terminal job is re-executed exactly like a fresh one, and its
status and outputs may change. -/
theorem execute_ignores_prior_status (env : WorkerEnv) (t0 t1 : Nat)
    (job : Job) (s : JobStatus) :
    execute env t0 t1 { job with status := s } = execute env t0 t1 job := rfl

/-- C6: a job whose pipeline tag is outside the supported enumeration ends
`failed` with the `Unsupported pipeline` message, and no worker adapter is
invoked (the call log is empty). -/
theorem unsupported_pipeline_fails_before_any_call (env : WorkerEnv)
    (t0 t1 : Nat) (job : Job) (tag : String)
    (hp : job.pipeline = .other tag) :
    (execute env t0 t1 job).1.status = JobStatus.failed ∧
    (execute env t0 t1 job).1.metadata.error_message =
      some ("Unsupported pipeline: " ++ tag) ∧
    (execute env t0 t1 job).2 = [] := by
  have hd : dispatch env (startJob t0 job) =
      (.error ("Unsupported pipeline: " ++ tag), []) := by
    have hp' : (startJob t0 job).pipeline = .other tag := hp
    unfold dispatch
    rw [hp']
  simp only [execute]
  rw [hd]
  exact ⟨rfl, rfl, rfl⟩

/-- Witness for C6 at a concrete input. -/
theorem unsupported_pipeline_fails_before_any_call_witness :
    jobC6.pipeline = PipelineType.other "banana" ∧
    ((execute envFailAll 0 1 jobC6).1.status = JobStatus.failed ∧
     (execute envFailAll 0 1 jobC6).1.metadata.error_message =
       some ("Unsupported pipeline: " ++ "banana") ∧
     (execute envFailAll 0 1 jobC6).2 = []) :=
  ⟨rfl, unsupported_pipeline_fails_before_any_call envFailAll 0 1 jobC6 "banana" rfl⟩

/-- An environment in which transcription and cleanup succeed but the image
worker raises. -/
def envC3 : WorkerEnv := fun c =>
  match c with
  | .stt _ _ => .ok { text := some "a red bicycle" }
  | .llm _ _ => .ok { text := some "a red bicycle, photorealistic" }
  | .image _ _ => .error "image worker down"
  | _ => .error "unused worker"

/-- A fresh speech-to-image job. -/
def jobC3 : Job :=
  { job_id := "c3", pipeline := .speech_to_image,
    inputs := { audio_url := some "http://host/a.wav" }, options := {} }

/-- C3 counterexample: in a speech-to-image run where transcription succeeds
("a red bicycle") and the final image step raises, the returned `failed` job
does NOT have the transcription in `outputs.text` — the assignment
`job.outputs.text = transcribed_text` comes only after the image call. -/
theorem s2i_transcription_lost_on_image_failure_cex :
    (execute envC3 3 4 jobC3).1.status = JobStatus.failed ∧
    (execute envC3 3 4 jobC3).1.outputs.text = none ∧
    (execute envC3 3 4 jobC3).1.metadata.error_message = some "image worker down" := by
  decide

/-- C3 (amended): a speech-to-image job that ends `failed` keeps its
pre-execution outputs unchanged — in particular the transcription is NOT
recorded in `outputs.text` (it is assigned only after the final image step
succeeds), so a fresh job that fails at the image step has
`outputs.text = none`. -/
theorem s2i_failed_keeps_prior_outputs (env : WorkerEnv) (t0 t1 : Nat) (job : Job)
    (_hp : job.pipeline = .speech_to_image)
    (hf : (execute env t0 t1 job).1.status = JobStatus.failed) :
    (execute env t0 t1 job).1.outputs = job.outputs :=
  execute_outputs_of_failed env t0 t1 job hf

/-- Witness for the amended C3 at a concrete input. -/
theorem s2i_failed_keeps_prior_outputs_witness :
    jobC3.pipeline = PipelineType.speech_to_image ∧
    (execute envC3 3 4 jobC3).1.status = JobStatus.failed ∧
    (execute envC3 3 4 jobC3).1.outputs = jobC3.outputs :=
  ⟨rfl, by decide, s2i_failed_keeps_prior_outputs envC3 3 4 jobC3 rfl (by decide)⟩

/-- An environment in which both the style rewrite and the image generation
succeed. -/
def envC9 : WorkerEnv := fun c =>
  match c with
  | .llm _ _ => .ok { text := some "a cinematic, dramatic cat portrait" }
  | .image _ _ => .ok { image_url := some "/storage/images/cat.png" }
  | _ => .error "unused worker"

/-- A text-to-image job with a style option set. -/
def jobC9 : Job :=
  { job_id := "c9", pipeline := .text_to_image,
    inputs := { text := some "a cat" },
    options := { style := some "cinematic" } }

/-- C9 counterexample: both adapters are used (the call log shows the LLM
style rewrite followed by the image call) yet the completed job's
`metadata.worker_used` is just `"image-worker"` — the language-model adapter
is not recorded. -/
theorem worker_used_omits_llm_adapter_cex :
    (execute envC9 0 1 jobC9).1.status = JobStatus.completed ∧
    (execute envC9 0 1 jobC9).1.outputs.image_url = some "/storage/images/cat.png" ∧
    (execute envC9 0 1 jobC9).2 =
      [WCall.llm (some "Rewrite this prompt in a cinematic style: a cat")
         (.enhanceOpts 200 (7/10)),
       WCall.image (some "a cinematic, dramatic cat portrait") (.jobOpts jobC9.options)] ∧
    (execute envC9 0 1 jobC9).1.metadata.worker_used = some "image-worker" :=
  ⟨rfl, rfl, rfl, rfl⟩

/-- C9 (amended): a completed text-to-image job records only the image
adapter in `metadata.worker_used` (`"image-worker"`); the language-model
adapter used for the style rewrite is never recorded there. -/
theorem t2i_completed_worker_used_image_only (env : WorkerEnv) (t0 t1 : Nat)
    (job : Job)
    (hp : job.pipeline = .text_to_image)
    (hc : (execute env t0 t1 job).1.status = JobStatus.completed) :
    (execute env t0 t1 job).1.metadata.worker_used = some "image-worker" := by
  cases hd : dispatch env (startJob t0 job) with
  | mk res log =>
    cases res with
    | ok j2 =>
      have hp' : (startJob t0 job).pipeline = PipelineType.text_to_image := hp
      have ht2i : textToImage env (startJob t0 job) = (.ok j2, log) := by
        have h' := hd
        unfold dispatch at h'
        rw [hp'] at h'
        exact h'
      have hw := (textToImage_ok_meta env ht2i).2
      simp only [execute]
      rw [hd]
      simp [finishJob, hw]
    | error e =>
      simp only [execute] at hc
      rw [hd] at hc
      simp [finishJob] at hc

/-- `startJob` only touches `status` and `metadata`. -/
theorem startJob_pipeline (t : Nat) (j : Job) : (startJob t j).pipeline = j.pipeline := rfl

/-- `startJob` leaves `inputs` unchanged. -/
theorem startJob_inputs (t : Nat) (j : Job) : (startJob t j).inputs = j.inputs := rfl

/-- `startJob` leaves `options` unchanged. -/
theorem startJob_options (t : Nat) (j : Job) : (startJob t j).options = j.options := rfl

/-- C4: a failing optional language-model enhancement never fails the job.
First conjunct — text-to-image with a truthy style option whose style-rewrite
call raises: the image adapter is invoked with the unmodified original text,
and the job completes whenever that image call succeeds.  Second conjunct —
speech-to-image whose prompt-cleanup call raises after a non-empty
transcription: the image adapter is invoked with the raw transcription, and
the job completes (retaining the transcription) whenever that image call
succeeds. -/
theorem enhancement_failure_nonfatal :
    (∀ (env : WorkerEnv) (t0 t1 : Nat) (job : Job) (e : String),
       job.pipeline = PipelineType.text_to_image →
       pyTruthy job.options.style = true →
       env (WCall.llm (some (stylePrompt job.options.style job.inputs.text))
             (.enhanceOpts 200 (7/10))) = .error e →
       (execute env t0 t1 job).2 =
         [WCall.llm (some (stylePrompt job.options.style job.inputs.text))
            (.enhanceOpts 200 (7/10)),
          WCall.image job.inputs.text (.jobOpts job.options)] ∧
       (∀ r, env (WCall.image job.inputs.text (.jobOpts job.options)) = .ok r →
          (execute env t0 t1 job).1.status = JobStatus.completed)) ∧
    (∀ (env : WorkerEnv) (t0 t1 : Nat) (job : Job) (r : WResult) (e : String),
       job.pipeline = PipelineType.speech_to_image →
       env (WCall.stt job.inputs.audio_url (.jobOpts job.options)) = .ok r →
       r.text.getD "" ≠ "" →
       env (WCall.llm (some (cleanupPrompt (r.text.getD "")))
             (.enhanceOpts 150 (7/10))) = .error e →
       (execute env t0 t1 job).2 =
         [WCall.stt job.inputs.audio_url (.jobOpts job.options),
          WCall.llm (some (cleanupPrompt (r.text.getD ""))) (.enhanceOpts 150 (7/10)),
          WCall.image (some (r.text.getD "")) (.jobOpts job.options)] ∧
       (∀ r2, env (WCall.image (some (r.text.getD "")) (.jobOpts job.options)) = .ok r2 →
          (execute env t0 t1 job).1.status = JobStatus.completed ∧
          (execute env t0 t1 job).1.outputs.text = some (r.text.getD ""))) := by
  constructor
  · intro env t0 t1 job e hp hs hllm
    have hp' : (startJob t0 job).pipeline = PipelineType.text_to_image := hp
    have hsr : styleRewrite env (startJob t0 job) =
        (job.inputs.text,
         [WCall.llm (some (stylePrompt job.options.style job.inputs.text))
            (.enhanceOpts 200 (7/10))]) := by
      simp only [styleRewrite, startJob_options, startJob_inputs, hs, if_true, hllm]
    constructor
    · cases hi : env (WCall.image job.inputs.text (.jobOpts job.options)) with
      | error e2 =>
        simp only [execute]
        unfold dispatch
        rw [hp']
        simp only [textToImage, startJob_options, startJob_inputs, hsr, hi]
        rfl
      | ok r0 =>
        simp only [execute]
        unfold dispatch
        rw [hp']
        simp only [textToImage, startJob_options, startJob_inputs, hsr, hi]
        rfl
    · intro r hi
      simp only [execute]
      unfold dispatch
      rw [hp']
      simp only [textToImage, startJob_options, startJob_inputs, hsr, hi]
      rfl
  · intro env t0 t1 job r e hp hstt ht hllm
    have hp' : (startJob t0 job).pipeline = PipelineType.speech_to_image := hp
    have hcl : cleanupStep env (r.text.getD "") =
        (r.text.getD "",
         [WCall.llm (some (cleanupPrompt (r.text.getD ""))) (.enhanceOpts 150 (7/10))]) := by
      simp only [cleanupStep, if_neg ht, hllm]
    constructor
    · cases hi : env (WCall.image (some (r.text.getD "")) (.jobOpts job.options)) with
      | error e2 =>
        simp only [execute]
        unfold dispatch
        rw [hp']
        simp only [speechToImage, startJob_options, startJob_inputs, hstt, hcl, hi]
        rfl
      | ok r0 =>
        simp only [execute]
        unfold dispatch
        rw [hp']
        simp only [speechToImage, startJob_options, startJob_inputs, hstt, hcl, hi]
        rfl
    · intro r2 hi
      simp only [execute]
      unfold dispatch
      rw [hp']
      simp only [speechToImage, startJob_options, startJob_inputs, hstt, hcl, hi]
      exact ⟨rfl, rfl⟩

/-- An environment where the style-rewrite LLM call raises but image
generation succeeds. -/
def envW4a : WorkerEnv := fun c =>
  match c with
  | .llm _ _ => .error "llm down"
  | .image _ _ => .ok { image_url := some "/storage/images/a.png" }
  | _ => .error "unused worker"

/-- A text-to-image job with a style option, for the C4 witness. -/
def jobW4a : Job :=
  { job_id := "w4a", pipeline := .text_to_image,
    inputs := { text := some "a dog" },
    options := { style := some "noir" } }

/-- An environment where transcription succeeds, the cleanup LLM call raises,
and image generation succeeds. -/
def envW4b : WorkerEnv := fun c =>
  match c with
  | .stt _ _ => .ok { text := some "a red bicycle" }
  | .llm _ _ => .error "llm timeout"
  | .image _ _ => .ok { image_url := some "/storage/images/b.png" }
  | _ => .error "unused worker"

/-- A fresh speech-to-image job, for the C4 witness. -/
def jobW4b : Job :=
  { job_id := "w4b", pipeline := .speech_to_image,
    inputs := { audio_url := some "http://host/b.wav" }, options := {} }

/-- Witness for C4 at concrete inputs, one per conjunct. -/
theorem enhancement_failure_nonfatal_witness :
    (jobW4a.pipeline = PipelineType.text_to_image ∧
     pyTruthy jobW4a.options.style = true ∧
     (execute envW4a 0 1 jobW4a).2 =
       [WCall.llm (some (stylePrompt jobW4a.options.style jobW4a.inputs.text))
          (.enhanceOpts 200 (7/10)),
        WCall.image jobW4a.inputs.text (.jobOpts jobW4a.options)] ∧
     (execute envW4a 0 1 jobW4a).1.status = JobStatus.completed) ∧
    (jobW4b.pipeline = PipelineType.speech_to_image ∧
     (execute envW4b 0 1 jobW4b).1.status = JobStatus.completed ∧
     (execute envW4b 0 1 jobW4b).1.outputs.text = some "a red bicycle") :=
  ⟨⟨rfl, by decide,
    (enhancement_failure_nonfatal.1 envW4a 0 1 jobW4a "llm down" rfl (by decide) rfl).1,
    (enhancement_failure_nonfatal.1 envW4a 0 1 jobW4a "llm down" rfl (by decide) rfl).2
      { image_url := some "/storage/images/a.png" } rfl⟩,
   ⟨rfl,
    ((enhancement_failure_nonfatal.2 envW4b 0 1 jobW4b { text := some "a red bicycle" }
        "llm timeout" rfl rfl (by decide) rfl).2
      { image_url := some "/storage/images/b.png" } rfl).1,
    ((enhancement_failure_nonfatal.2 envW4b 0 1 jobW4b { text := some "a red bicycle" }
        "llm timeout" rfl rfl (by decide) rfl).2
      { image_url := some "/storage/images/b.png" } rfl).2⟩⟩

/-- Witness for the amended C9 at a concrete input. -/
theorem t2i_completed_worker_used_image_only_witness :
    jobC9.pipeline = PipelineType.text_to_image ∧
    (execute envC9 0 1 jobC9).1.status = JobStatus.completed ∧
    (execute envC9 0 1 jobC9).1.metadata.worker_used = some "image-worker" :=
  ⟨rfl, by decide, t2i_completed_worker_used_image_only envC9 0 1 jobC9 rfl (by decide)⟩


/-- If every candidate in the list advances the chain with its own error,
the loop exhausts the list and the final message carries the LAST
candidate's error (the threaded `last_error` is overwritten on each
advance). -/
theorem runChain_all_advance (env : String → Nat → ImageWorker.PostOutcome)
    (errOf : String → String) :
    ∀ (models : List String) (hne : models ≠ []) (le : Option String),
      (∀ url ∈ models, (ImageWorker.tryModel env url).1 = .advance (errOf url)) →
      (ImageWorker.runChain env models le).1 =
        .httpError 500 ("Image generation failed with all models. Last error: " ++
          errOf (models.getLast hne)) := by
  intro models
  induction models with
  | nil => intro hne; exact absurd rfl hne
  | cons u rest ih =>
    intro hne le hall
    have hu := hall u (by simp)
    rcases htry : ImageWorker.tryModel env u with ⟨tr, ev⟩
    rw [htry] at hu
    simp only at hu
    subst hu
    cases rest with
    | nil =>
      simp only [ImageWorker.runChain, htry]
      simp [ImageWorker.runChain, pyStr, List.getLast]
    | cons v rest2 =>
      have hrec := ih (by simp) (some (errOf u))
        (fun url hu2 => hall url (List.mem_cons_of_mem u hu2))
      conv_lhs => rw [ImageWorker.runChain.eq_2]
      rw [htry]
      conv_rhs => rw [List.getLast_cons (List.cons_ne_nil v rest2)]
      exact hrec

/-- C5: when every candidate model in the priority list
(`[HF_API_URL] + FALLBACK_MODELS`) fails in a chain-advancing way, the image
worker returns a 500 whose message names the LAST candidate's observed
error, not the first candidate's. -/
theorem image_fallback_exhaustion_names_last_error
    (env : String → Nat → ImageWorker.PostOutcome)
    (primary : String) (fallbacks : List String) (errOf : String → String)
    (hall : ∀ url ∈ primary :: fallbacks,
       (ImageWorker.tryModel env url).1 = .advance (errOf url)) :
    (ImageWorker.generate true env primary fallbacks).1 =
      .httpError 500 ("Image generation failed with all models. Last error: " ++
        errOf ((primary :: fallbacks).getLast (List.cons_ne_nil _ _))) :=
  runChain_all_advance env errOf (primary :: fallbacks) (List.cons_ne_nil _ _) none hall

/-- An environment in which every POST to every candidate returns 404. -/
def env404 : String → Nat → ImageWorker.PostOutcome := fun _ _ => .resp 404 none ""

/-- Witness for C5 at a concrete input: three candidates, all 404; the final
message names the third candidate's error. -/
theorem image_fallback_exhaustion_names_last_error_witness :
    (∀ url ∈ "m1" :: ["m2", "m3"],
       (ImageWorker.tryModel env404 url).1 = .advance ("Model unavailable at " ++ url)) ∧
    (ImageWorker.generate true env404 "m1" ["m2", "m3"]).1 =
      .httpError 500
        "Image generation failed with all models. Last error: Model unavailable at m3" := by
  have hall : ∀ url ∈ "m1" :: ["m2", "m3"],
      (ImageWorker.tryModel env404 url).1 = .advance ("Model unavailable at " ++ url) := by
    intro url hu
    fin_cases hu <;> rfl
  refine ⟨hall, ?_⟩
  have h := image_fallback_exhaustion_names_last_error env404 "m1" ["m2", "m3"]
    (fun u => "Model unavailable at " ++ u) hall
  simpa using h


/-- C7: on a transient-unavailable (503) response the adapters wait a
bounded delay and retry exactly once.  First conjunct — image worker, one
candidate: a 503 followed by a second 503 produces exactly two POSTs with a
single sleep of `min(estimated_time or 20, 30) ≤ 30` between them, and the
candidate's invocation ends in failure (chain advance), not in a third
attempt.  Second conjunct — STT worker: a 503 followed by a second 503
produces exactly two POSTs with a single fixed 10-unit sleep, and the call
ends as a hard 503 failure. -/
theorem transient_unavailable_retried_exactly_once :
    (∀ (env : String → Nat → ImageWorker.PostOutcome) (url : String)
       (est : Option Nat) (b : String) (est2 : Option Nat) (b2 : String),
       env url 0 = .resp 503 est b →
       env url 1 = .resp 503 est2 b2 →
       ImageWorker.tryModel env url =
         (.advance "API error: 503",
          [.post url 0, .sleepFor (min (est.getD 20) 30), .post url 1]) ∧
       min (est.getD 20) 30 ≤ 30) ∧
    (∀ (env : SttWorker.Env) (s0 : Nat) (body0 : String) (j0 : SttWorker.Js)
       (b1 : String) (j1 : SttWorker.Js) (b2 : String) (j2 : SttWorker.Js),
       env.fetchAudio = .resp s0 body0 j0 →
       s0 < 400 →
       env.post 0 = .resp 503 b1 j1 →
       env.post 1 = .resp 503 b2 j2 →
       SttWorker.generate true env =
         (.httpError 503 ("Hugging Face API error: " ++ b2),
          [.fetchAudio, .post 0, .sleepFor 10, .post 1])) := by
  constructor
  · intro env url est b est2 b2 h0 h1
    refine ⟨?_, min_le_right _ _⟩
    unfold ImageWorker.tryModel
    rw [h0]
    simp only [h1, ImageWorker.classify]
    norm_num
    rfl
  · intro env s0 body0 j0 b1 j1 b2 j2 hfetch hlt h0 h1
    unfold SttWorker.generate
    rw [hfetch]
    simp only [Bool.not_true, Bool.false_eq_true, if_false]
    rw [if_neg (by omega), h0]
    simp only [h1, SttWorker.finalize]
    norm_num

/-- An image-worker environment that always answers 503 with an estimated
time of 40. -/
def envI503 : String → Nat → ImageWorker.PostOutcome :=
  fun _ _ => .resp 503 (some 40) "busy"

/-- An STT-worker environment whose audio fetch succeeds and whose HF posts
always answer 503. -/
def envStt503 : SttWorker.Env :=
  { fetchAudio := .resp 200 "RIFFdata" .jother,
    post := fun _ => .resp 503 "model loading" .jother }

/-- Witness for C7 at concrete inputs, one per conjunct; the estimated time
of 40 is clamped to a 30-unit sleep. -/
theorem transient_unavailable_retried_exactly_once_witness :
    (ImageWorker.tryModel envI503 "m" =
       (.advance "API error: 503",
        [.post "m" 0, .sleepFor 30, .post "m" 1]) ∧
     (30 : Nat) ≤ 30) ∧
    SttWorker.generate true envStt503 =
      (.httpError 503 "Hugging Face API error: model loading",
       [.fetchAudio, .post 0, .sleepFor 10, .post 1]) := by
  constructor
  · have h := (transient_unavailable_retried_exactly_once.1 envI503 "m"
      (some 40) "busy" (some 40) "busy" rfl rfl)
    simpa using h
  · have h := (transient_unavailable_retried_exactly_once.2 envStt503 200 "RIFFdata"
      .jother "model loading" .jother "model loading" .jother rfl (by omega) rfl rfl)
    simpa using h

/-- A CycleGAN-worker environment whose precheck HEAD and GET both raise. -/
def envCgUnreachable : CycleganWorker.Env :=
  { headCheck := .error "403 Client Error",
    getCheck := .error "connection refused",
    post := fun _ => .netErr "unused",
    fetchPost := fun _ _ => .netErr "unused",
    futureGet := fun _ _ => none,
    imageGet := fun _ => .failed "unused",
    imageId := "id0" }

/-- C8: when the input image URL is not fetchable (both the HEAD precheck
and its GET fallback raise), the CycleGAN worker fails the invocation with a
400 whose message identifies the input as unreachable, and the only requests
made are the two precheck probes — in particular no POST to the provider
endpoint is attempted. -/
theorem precheck_unreachable_fails_before_provider_call
    (env : CycleganWorker.Env) (apiUrl e1 e2 : String)
    (hh : env.headCheck = .error e1)
    (hg : env.getCheck = .error e2) :
    CycleganWorker.generate true apiUrl env =
      (.httpError 400 ("Image URL is not accessible: " ++ e2),
       [CycleganWorker.Ev.headCheck, CycleganWorker.Ev.getCheck]) ∧
    ∀ n, CycleganWorker.Ev.providerPost n ∉ (CycleganWorker.generate true apiUrl env).2 := by
  have h : CycleganWorker.generate true apiUrl env =
      (.httpError 400 ("Image URL is not accessible: " ++ e2),
       [CycleganWorker.Ev.headCheck, CycleganWorker.Ev.getCheck]) := by
    unfold CycleganWorker.generate
    rw [hh, hg]
    simp
  refine ⟨h, ?_⟩
  intro n
  rw [h]
  simp

/-- Witness for C8 at a concrete input. -/
theorem precheck_unreachable_fails_before_provider_call_witness :
    envCgUnreachable.headCheck = .error "403 Client Error" ∧
    envCgUnreachable.getCheck = .error "connection refused" ∧
    CycleganWorker.generate true "https://modelslab.com/api/v6/images/img2img" envCgUnreachable =
      (.httpError 400 "Image URL is not accessible: connection refused",
       [CycleganWorker.Ev.headCheck, CycleganWorker.Ev.getCheck]) ∧
    CycleganWorker.Ev.providerPost 0 ∉
      (CycleganWorker.generate true "https://modelslab.com/api/v6/images/img2img"
        envCgUnreachable).2 := by
  have h := precheck_unreachable_fails_before_provider_call envCgUnreachable
    "https://modelslab.com/api/v6/images/img2img" "403 Client Error" "connection refused"
    rfl rfl
  exact ⟨rfl, rfl, h.1, h.2 0⟩


/-- The enum tag of a supported pipeline type parses back to itself. -/
theorem pipelineType_ofValue_value {p : PipelineType} (h : p.supported = true) :
    PipelineType.ofValue p.value = some p := by
  cases p
  · rfl
  · rfl
  · rfl
  · rfl
  · rfl
  · rfl
  · simp [PipelineType.supported] at h

/-- The enum tag of a job status parses back to itself. -/
theorem jobStatus_ofValue_value (st : JobStatus) :
    JobStatus.ofValue st.value = some st := by
  cases st <;> rfl

/-- `_row_to_job` inverts the serialization of `create_job` on any job whose
pipeline tag belongs to the closed enumeration. -/
theorem rowToJob_jobToRow (job : Job) (hsup : job.pipeline.supported = true) :
    JobDB.rowToJob (JobDB.jobToRow job) = some job := by
  unfold JobDB.rowToJob JobDB.jobToRow
  rw [pipelineType_ofValue_value hsup, jobStatus_ofValue_value]
  rfl

/-- C10: storing a job with `create_job` and retrieving it with `get_job`
under the same `job_id` round-trips: the retrieved job equals the stored one
in every field, the enum fields being restored from their canonical string
tags.  The hypotheses reflect what the system guarantees at every call
site: the pipeline tag belongs to the closed enumeration (pydantic
validation) and the INSERT succeeded (fresh primary key). -/
theorem create_then_get_roundtrip (db db2 : JobDB.DB) (job : Job)
    (hsup : job.pipeline.supported = true)
    (hc : JobDB.create_job db job = some db2) :
    JobDB.get_job db2 job.job_id = some job := by
  unfold JobDB.create_job at hc
  split at hc
  · simp at hc
  · obtain rfl : JobDB.jobToRow job :: db = db2 := by
      injection hc
    unfold JobDB.get_job
    rw [List.find?_cons_of_pos _ (by simp [JobDB.jobToRow])]
    exact rowToJob_jobToRow job hsup

/-- Witness for C10 at a concrete input: an empty store and a fresh job. -/
theorem create_then_get_roundtrip_witness :
    jobW1.pipeline.supported = true ∧
    JobDB.create_job [] jobW1 = some [JobDB.jobToRow jobW1] ∧
    JobDB.get_job [JobDB.jobToRow jobW1] jobW1.job_id = some jobW1 :=
  ⟨rfl, rfl,
   create_then_get_roundtrip [] [JobDB.jobToRow jobW1] jobW1 rfl rfl⟩

end Genesis
